import Mathlib

/-!
A shallow embedding of `futhark-bindgen`'s `src/lib.rs` (Backend, Compiler,
Library, and the build-script wrappers), together with theorems checking the
repository's specification against it.

Modelling conventions:
- Paths (`std::path::PathBuf`) are modelled as a root flag plus a list of
  normal components; `join`, `file_name`, `file_stem`, `with_extension` and
  `parent` follow the documented Rust `std::path` semantics for such paths.
- Effects (`std::process::Command::status`, manifest-file parsing) are
  supplied through an explicit environment record; a Rust panic (`unwrap`)
  is modelled as `none` at the outermost `Option` layer.
- Strings stand in for `OsStr`/`to_string_lossy` renderings.
-/

namespace FutharkBindgen

/-- `std::path::PathBuf`, restricted to paths built from normal components:
`absolute` records whether the path has a root. -/
structure PathBuf where
  absolute : Bool
  comps : List String
deriving DecidableEq, Repr

/-- Portion of a file name before its final `.`, per Rust `Path::file_stem`:
the whole name when there is no `.`, or when the only `.` is leading.
Helper scanning the characters, returning the parts before and after the
last dot when one exists. -/
def lastDotSplit : List Char → Option (List Char × List Char)
  | [] => none
  | c :: rest =>
    match lastDotSplit rest with
    | some (b, a) => some (c :: b, a)
    | none => if c = '.' then some ([], rest) else none

/-- Rust `Path::file_stem` applied to a file name (a single component). -/
def fileStemName (s : String) : String :=
  match lastDotSplit s.data with
  | none => s
  | some ([], _) => s
  | some (b, _) => String.mk b

/-- Rust `Path::set_extension` applied to a file name: the stem, followed by
`.ext` when `ext` is nonempty. -/
def setExtName (name ext : String) : String :=
  if ext = "" then fileStemName name else fileStemName name ++ "." ++ ext

/-- Rust `Path::file_name`: the last component. -/
def PathBuf.file_name (p : PathBuf) : Option String :=
  p.comps.getLast?

/-- Rust `Path::file_stem`. -/
def PathBuf.file_stem (p : PathBuf) : Option String :=
  p.file_name.map fileStemName

/-- Rust `Path::parent`: the path minus its last component; `none` for a
bare root or the empty path. -/
def PathBuf.parent (p : PathBuf) : Option PathBuf :=
  match p.comps with
  | [] => none
  | _ :: _ => some ⟨p.absolute, p.comps.dropLast⟩

/-- Rust `Path::join`: an absolute right operand replaces the left one. -/
def PathBuf.join (a b : PathBuf) : PathBuf :=
  if b.absolute then b else ⟨a.absolute, a.comps ++ b.comps⟩

/-- Rust `Path::with_extension`: replaces the extension of the last
component; a path without a file name is returned unchanged. -/
def PathBuf.with_extension (p : PathBuf) (ext : String) : PathBuf :=
  match p.comps.getLast? with
  | none => p
  | some n => ⟨p.absolute, p.comps.dropLast ++ [setExtName n ext]⟩

/-- Rust `Path::to_string_lossy` for paths of normal Unicode components. -/
def PathBuf.render (p : PathBuf) : String :=
  (if p.absolute then "/" else "") ++ String.intercalate "/" p.comps

/-- The `Backend` enum of src/lib.rs (lines 11-30). -/
inductive Backend where
  | C
  | CUDA
  | OpenCL
  | Multicore
  | Python
  | PyOpenCL
deriving DecidableEq, Repr

/-- `Backend::to_str` (src/lib.rs lines 32-42). -/
def Backend.to_str : Backend → String
  | Backend.C => "c"
  | Backend.CUDA => "cuda"
  | Backend.OpenCL => "opencl"
  | Backend.Multicore => "multicore"
  | Backend.Python => "python"
  | Backend.PyOpenCL => "pyopencl"

/-- `Backend::required_c_libs` (src/lib.rs lines 44-50). -/
def Backend.required_c_libs : Backend → List String
  | Backend.CUDA => ["cuda", "cudart", "nvrtc", "m"]
  | Backend.OpenCL => ["OpenCL", "m"]
  | _ => []

/-- Deserialisation of a `Backend` wire name, per the serde `rename`
attributes on the enum (src/lib.rs lines 11-30): each unit variant
deserialises from exactly its renamed string. -/
def Backend.fromWireName (s : String) : Option Backend :=
  if s = "c" then some Backend.C
  else if s = "cuda" then some Backend.CUDA
  else if s = "opencl" then some Backend.OpenCL
  else if s = "multicore" then some Backend.Multicore
  else if s = "python" then some Backend.Python
  else if s = "pyopencl" then some Backend.PyOpenCL
  else none

/-- Modelled from the spec: `manifest.rs` is not under src/; only the
`backend` attribute of the Manifest root document (spec section 3) is needed
by the claims here. -/
structure Manifest where
  backend : Backend
deriving DecidableEq, Repr

/-- Modelled from the spec: `error.rs` is not under src/; the error taxonomy
follows spec section 7, with each wrapping variant carrying its detail as a
string. -/
inductive Error where
  | CompilationFailed
  | Io (detail : String)
  | ManifestParse (detail : String)
  | InvalidOutputLanguage
  | Emit (detail : String)
deriving DecidableEq, Repr

/-- The `Compiler` struct of src/lib.rs (lines 53-60), fields in source
order. -/
structure Compiler where
  exe : String
  backend : Backend
  src : PathBuf
  extra_args : List String
  output_dir : PathBuf
deriving DecidableEq, Repr

/-- The `Library` struct of src/lib.rs (lines 62-68). -/
structure Library where
  manifest : Manifest
  c_file : PathBuf
  h_file : PathBuf
  src : PathBuf
deriving DecidableEq, Repr

/-- The effects `Compiler::compile` performs, supplied explicitly: `spawn`
maps an executable name and argument vector to the subprocess outcome
(`Except.error` is an OS launch failure with its detail, `Except.ok b` an
exit with success flag `b`); `parseManifest` is `Manifest::parse_file`. -/
structure Env where
  spawn : String → List String → Except String Bool
  parseManifest : PathBuf → Except Error Manifest

/-- The `output` stem computed at the start of `Compiler::compile`
(src/lib.rs lines 156-158): the output directory joined with
`src.with_extension("").file_name()`; `none` models the `unwrap` panic when
the source path has no file name. -/
def Compiler.output (c : Compiler) : Option PathBuf :=
  ((c.src.with_extension "").file_name).map
    (fun n => c.output_dir.join ⟨false, [n]⟩)

/-- The argument vector `Compiler::compile` passes to the spawned process
(src/lib.rs lines 159-164): backend name, extra args, `-o <output>`,
`--lib <src>`. -/
def Compiler.invocationArgs (c : Compiler) : Option (List String) :=
  c.output.map (fun out =>
    c.backend.to_str :: (c.extra_args ++ ["-o", out.render, "--lib", c.src.render]))

/-- `Compiler::compile` (src/lib.rs lines 155-187). The outer `Option`
models the `unwrap` panic on a source path without a file name; the
`Except` is the Rust `Result`. -/
def Compiler.compile (c : Compiler) (env : Env) : Option (Except Error (Option Library)) :=
  match c.output, c.invocationArgs with
  | some output, some args =>
    some (
      match env.spawn c.exe args with
      | Except.error e => Except.error (Error.Io e)
      | Except.ok ok =>
        if !ok then Except.error Error.CompilationFailed
        else
          match c.backend with
          | Backend.Python | Backend.PyOpenCL => Except.ok none
          | _ =>
            match env.parseManifest (output.with_extension "json") with
            | Except.error e => Except.error e
            | Except.ok manifest =>
              Except.ok (some
                { manifest := manifest
                  c_file := output.with_extension "c"
                  h_file := output.with_extension "h"
                  src := c.src }))
  | _, _ => none

/-- `Compiler::new` (src/lib.rs lines 123-138). `canon` models
`Path::canonicalize` (`none` is an error, turned into a panic by the
source's `unwrap`, as is a canonical path without a parent). -/
def Compiler.new (backend : Backend) (src : PathBuf)
    (canon : PathBuf → Option PathBuf) : Option Compiler :=
  match canon src with
  | none => none
  | some p =>
    match p.parent with
    | none => none
    | some d =>
      some { exe := "futhark", src := src, extra_args := [],
             output_dir := d, backend := backend }

/-- `Compiler::with_executable_name` (src/lib.rs lines 140-143). -/
def Compiler.with_executable_name (c : Compiler) (name : String) : Compiler :=
  { c with exe := name }

/-- `Compiler::with_extra_args` (src/lib.rs lines 145-148). -/
def Compiler.with_extra_args (c : Compiler) (args : List String) : Compiler :=
  { c with extra_args := args }

/-- `Compiler::with_output_dir` (src/lib.rs lines 150-153). -/
def Compiler.with_output_dir (c : Compiler) (dir : PathBuf) : Compiler :=
  { c with output_dir := dir }

/-- What `Library::link` instructs the surrounding build to do. -/
structure LinkStep where
  flags : List String
  file : PathBuf
  archive : String
  directives : List String
deriving DecidableEq, Repr

/-- `Library::link` (src/lib.rs lines 70-89): the `cc::Build` call is
recorded as its flag list, compiled file and archive name; the
`cargo:rustc-link-lib` lines are recorded in print order. `project` is the
`CARGO_PKG_NAME` environment value. -/
def Library.link (l : Library) (project : String) : LinkStep :=
  let name := "futhark_generate_" ++ project
  { flags := ["-Wno-unused-parameter"]
    file := l.c_file
    archive := name
    directives :=
      ("cargo:rustc-link-lib=" ++ name) ::
        l.manifest.backend.required_c_libs.map
          (fun lib => "cargo:rustc-link-lib=" ++ lib) }

/-- The destination path `build` passes to `Config::new` (src/lib.rs
line 103): `OUT_DIR` joined with the `dest` argument. -/
def buildConfigDest (out_dir dest : PathBuf) : PathBuf :=
  out_dir.join dest

/-- The destination path `Config::new` receives through `build_in_out_dir`
(src/lib.rs lines 113-121): `build_in_out_dir` joins `dest` with `OUT_DIR`
and passes the result to `build`, which joins it with `OUT_DIR` again. -/
def buildInOutDirConfigDest (out_dir dest : PathBuf) : PathBuf :=
  buildConfigDest out_dir (out_dir.join dest)

/-- Follows the spec's words (for comparison with the code): `<out_stem>`,
the output directory joined with the source file's stem. -/
def specOutStem (c : Compiler) : Option PathBuf :=
  c.src.file_stem.map (fun s => c.output_dir.join ⟨false, [s]⟩)

/-- Follows the spec's words (for comparison with the code): `<p>.ext`,
the path with `.ext` appended to its file name. -/
def PathBuf.appendExt (p : PathBuf) (ext : String) : PathBuf :=
  match p.comps.getLast? with
  | none => p
  | some n => ⟨p.absolute, p.comps.dropLast ++ [n ++ "." ++ ext]⟩

/-! ### Helper lemmas -/

theorem with_extension_empty_file_name (p : PathBuf) (n : String)
    (h : p.comps.getLast? = some n) :
    (p.with_extension "").file_name = some (fileStemName n) := by
  simp [PathBuf.with_extension, h, PathBuf.file_name, setExtName]

theorem Compiler.output_of_file_name (c : Compiler) (n : String)
    (h : c.src.file_name = some n) :
    c.output = some (c.output_dir.join ⟨false, [fileStemName n]⟩) := by
  simp [Compiler.output, with_extension_empty_file_name c.src n h]

theorem Compiler.output_isSome_of_invocationArgs (c : Compiler)
    (args : List String) (h : c.invocationArgs = some args) :
    ∃ out, c.output = some out := by
  rcases hq : c.output with _ | out
  · rw [Compiler.invocationArgs, hq] at h; simp at h
  · exact ⟨out, rfl⟩

/-! ### Claim theorems -/

/-- C1: for every Compiler (any backend, source path with a file name,
output directory, extra arguments), `compile()` spawns the executable with
argument vector `[backend_name, ...extra_args, "-o", <out_stem>, "--lib",
<src>]` in exactly that order, with `<out_stem>` the output directory
joined with the source file's stem, and the backend wire names being "c",
"cuda", "opencl", "multicore", "python", "pyopencl". -/
theorem compile_spawn_argument_vector (c : Compiler) (name : String)
    (h : c.src.file_name = some name) :
    c.invocationArgs = some
      ([c.backend.to_str] ++ c.extra_args ++
        ["-o", (c.output_dir.join ⟨false, [fileStemName name]⟩).render,
         "--lib", c.src.render]) ∧
    Backend.to_str Backend.C = "c" ∧
    Backend.to_str Backend.CUDA = "cuda" ∧
    Backend.to_str Backend.OpenCL = "opencl" ∧
    Backend.to_str Backend.Multicore = "multicore" ∧
    Backend.to_str Backend.Python = "python" ∧
    Backend.to_str Backend.PyOpenCL = "pyopencl" := by
  refine ⟨?_, rfl, rfl, rfl, rfl, rfl, rfl⟩
  simp [Compiler.invocationArgs, Compiler.output_of_file_name c name h]

def c1ex : Compiler :=
  { exe := "futhark", backend := Backend.CUDA, src := ⟨false, ["lib.fut"]⟩,
    extra_args := ["--verbose"], output_dir := ⟨true, ["out"]⟩ }

theorem compile_spawn_argument_vector_witness :
    c1ex.src.file_name = some "lib.fut" ∧
    (c1ex.invocationArgs = some
      ([c1ex.backend.to_str] ++ c1ex.extra_args ++
        ["-o", (c1ex.output_dir.join ⟨false, [fileStemName "lib.fut"]⟩).render,
         "--lib", c1ex.src.render]) ∧
    Backend.to_str Backend.C = "c" ∧
    Backend.to_str Backend.CUDA = "cuda" ∧
    Backend.to_str Backend.OpenCL = "opencl" ∧
    Backend.to_str Backend.Multicore = "multicore" ∧
    Backend.to_str Backend.Python = "python" ∧
    Backend.to_str Backend.PyOpenCL = "pyopencl") :=
  ⟨rfl, compile_spawn_argument_vector c1ex "lib.fut" rfl⟩

/-- C2: for every Compiler whose subprocess exits successfully and whose
backend is Python or PyOpenCL, `compile()` returns `Ok` with no Library,
and the result does not depend on the manifest parser (no manifest is read
or parsed): `parse` is universally quantified. -/
theorem compile_python_backend_no_library (c : Compiler)
    (spawn : String → List String → Except String Bool)
    (parse : PathBuf → Except Error Manifest) (args : List String)
    (hargs : c.invocationArgs = some args)
    (hspawn : spawn c.exe args = Except.ok true)
    (hb : c.backend = Backend.Python ∨ c.backend = Backend.PyOpenCL) :
    c.compile ⟨spawn, parse⟩ = some (Except.ok none) := by
  obtain ⟨out, hout⟩ := Compiler.output_isSome_of_invocationArgs c args hargs
  unfold Compiler.compile
  rw [hout, hargs]
  simp only [hspawn]
  rcases hb with hb | hb <;> rw [hb] <;> rfl

def alwaysOkSpawn : String → List String → Except String Bool :=
  fun _ _ => Except.ok true

def failSpawn : String → List String → Except String Bool :=
  fun _ _ => Except.ok false

def constManifest : PathBuf → Except Error Manifest :=
  fun _ => Except.ok ⟨Backend.C⟩

theorem compile_python_backend_no_library_witness :
    ({ exe := "futhark", backend := Backend.Python, src := ⟨false, ["x.fut"]⟩,
       extra_args := [], output_dir := ⟨true, ["o"]⟩ } : Compiler).compile
      ⟨alwaysOkSpawn, constManifest⟩ = some (Except.ok none) :=
  compile_python_backend_no_library _ alwaysOkSpawn constManifest _ rfl rfl
    (Or.inl rfl)

/-- C3: for every Compiler and every backend, if the spawned subprocess
exits with a non-success status then `compile()` fails with
`CompilationFailed`, and no Library value is produced. -/
theorem compile_subprocess_failure (c : Compiler) (env : Env)
    (args : List String)
    (hargs : c.invocationArgs = some args)
    (hspawn : env.spawn c.exe args = Except.ok false) :
    c.compile env = some (Except.error Error.CompilationFailed) := by
  obtain ⟨out, hout⟩ := Compiler.output_isSome_of_invocationArgs c args hargs
  unfold Compiler.compile
  rw [hout, hargs]
  simp only [hspawn]
  rfl

theorem compile_subprocess_failure_witness :
    ({ exe := "futhark", backend := Backend.Python, src := ⟨false, ["x.fut"]⟩,
       extra_args := [], output_dir := ⟨true, ["o"]⟩ } : Compiler).compile
      ⟨failSpawn, constManifest⟩ =
      some (Except.error Error.CompilationFailed) :=
  compile_subprocess_failure _ ⟨failSpawn, constManifest⟩ _ rfl rfl

/-- C4 (amended): for every Compiler whose subprocess exits successfully
and whose backend is neither Python nor PyOpenCL, `compile()` parses the
manifest from the out stem with its extension set to `json` and returns a
Library whose `c_file`/`h_file` are the out stem with extension set to
`c`/`h` (which coincides with appending `.c`/`.h` whenever the source stem
contains no dot), and whose `src` is the original source path. -/
theorem compile_success_returns_library (c : Compiler) (env : Env)
    (name : String) (m : Manifest) (args : List String)
    (hname : c.src.file_name = some name)
    (hargs : c.invocationArgs = some args)
    (hspawn : env.spawn c.exe args = Except.ok true)
    (hb1 : c.backend ≠ Backend.Python) (hb2 : c.backend ≠ Backend.PyOpenCL)
    (hm : env.parseManifest
        ((c.output_dir.join ⟨false, [fileStemName name]⟩).with_extension "json") =
      Except.ok m) :
    c.compile env = some (Except.ok (some
      { manifest := m
        c_file := (c.output_dir.join ⟨false, [fileStemName name]⟩).with_extension "c"
        h_file := (c.output_dir.join ⟨false, [fileStemName name]⟩).with_extension "h"
        src := c.src })) := by
  have hout := Compiler.output_of_file_name c name hname
  unfold Compiler.compile
  rw [hout, hargs]
  simp only [hspawn]
  cases hback : c.backend
  · simp only [hm]; rfl
  · simp only [hm]; rfl
  · simp only [hm]; rfl
  · simp only [hm]; rfl
  · exact absurd hback hb1
  · exact absurd hback hb2

theorem compile_success_returns_library_witness :
    ({ exe := "futhark", backend := Backend.C, src := ⟨false, ["x.fut"]⟩,
       extra_args := [], output_dir := ⟨true, ["o"]⟩ } : Compiler).compile
      ⟨alwaysOkSpawn, constManifest⟩ = some (Except.ok (some
      { manifest := ⟨Backend.C⟩
        c_file := (PathBuf.join ⟨true, ["o"]⟩ ⟨false, [fileStemName "x.fut"]⟩).with_extension "c"
        h_file := (PathBuf.join ⟨true, ["o"]⟩ ⟨false, [fileStemName "x.fut"]⟩).with_extension "h"
        src := ⟨false, ["x.fut"]⟩ })) :=
  compile_success_returns_library _ ⟨alwaysOkSpawn, constManifest⟩ "x.fut"
    ⟨Backend.C⟩ _ rfl rfl rfl (by decide) (by decide) rfl

def c4ex : Compiler :=
  { exe := "futhark", backend := Backend.C, src := ⟨false, ["a.b.fut"]⟩,
    extra_args := [], output_dir := ⟨true, ["out"]⟩ }

def c4env : Env :=
  { spawn := fun _ _ => Except.ok true
    parseManifest := fun p =>
      if p = ⟨true, ["out", "a.json"]⟩ then Except.ok ⟨Backend.C⟩
      else Except.error (Error.ManifestParse "no such file") }

/-- C4 counterexample: for the source `a.b.fut` (stem `a.b`), the claim as
stated fails: `<out_stem>.json` is `out/a.b.json` and `<out_stem>.c` is
`out/a.b.c`, but the code reads the manifest from `out/a.json` and returns
`c_file = out/a.c`, because `with_extension` replaces the stem's trailing
`.b` instead of appending. -/
theorem compile_out_stem_counterexample :
    specOutStem c4ex = some ⟨true, ["out", "a.b"]⟩ ∧
    PathBuf.appendExt ⟨true, ["out", "a.b"]⟩ "json" = ⟨true, ["out", "a.b.json"]⟩ ∧
    PathBuf.appendExt ⟨true, ["out", "a.b"]⟩ "c" = ⟨true, ["out", "a.b.c"]⟩ ∧
    c4env.parseManifest ⟨true, ["out", "a.b.json"]⟩ =
      Except.error (Error.ManifestParse "no such file") ∧
    c4ex.compile c4env = some (Except.ok (some
      { manifest := ⟨Backend.C⟩
        c_file := ⟨true, ["out", "a.c"]⟩
        h_file := ⟨true, ["out", "a.h"]⟩
        src := ⟨false, ["a.b.fut"]⟩ })) ∧
    (⟨true, ["out", "a.c"]⟩ : PathBuf) ≠ ⟨true, ["out", "a.b.c"]⟩ := by
  refine ⟨rfl, rfl, rfl, ?_, ?_, by decide⟩
  · rfl
  · rfl

/-- C5: `Backend::required_c_libs` returns exactly
{cuda, cudart, nvrtc, m} for CUDA, exactly {OpenCL, m} for OpenCL, and the
empty list for every other backend. -/
theorem required_c_libs_spec :
    Backend.required_c_libs Backend.CUDA = ["cuda", "cudart", "nvrtc", "m"] ∧
    Backend.required_c_libs Backend.OpenCL = ["OpenCL", "m"] ∧
    Backend.required_c_libs Backend.C = [] ∧
    Backend.required_c_libs Backend.Multicore = [] ∧
    Backend.required_c_libs Backend.Python = [] ∧
    Backend.required_c_libs Backend.PyOpenCL = [] :=
  ⟨rfl, rfl, rfl, rfl, rfl, rfl⟩

/-- C6: for every destination given to `build_in_out_dir`, the path handed
to the code-generation configuration equals the destination joined with the
build output directory exactly once, given that `OUT_DIR` is absolute (as
cargo guarantees): the second join performed by `build` is then a no-op. -/
theorem build_in_out_dir_joins_once (out_dir dest : PathBuf)
    (h : out_dir.absolute = true) :
    buildInOutDirConfigDest out_dir dest = out_dir.join dest := by
  unfold buildInOutDirConfigDest buildConfigDest PathBuf.join
  cases hd : dest.absolute <;> simp [hd, h]

theorem build_in_out_dir_joins_once_witness :
    (PathBuf.mk true ["out"]).absolute = true ∧
    buildInOutDirConfigDest ⟨true, ["out"]⟩ ⟨false, ["bindings.rs"]⟩ =
      PathBuf.join ⟨true, ["out"]⟩ ⟨false, ["bindings.rs"]⟩ :=
  ⟨rfl, build_in_out_dir_joins_once ⟨true, ["out"]⟩ ⟨false, ["bindings.rs"]⟩ rfl⟩

/-- C7: for every Library, `link()` compiles the Library's C source with
the unused-parameter diagnostic silenced, links it as a static archive
named deterministically from the project name, and emits link directives
for exactly that archive plus each required backend C library. -/
theorem link_step_spec (l : Library) (project : String) :
    (l.link project).flags = ["-Wno-unused-parameter"] ∧
    (l.link project).file = l.c_file ∧
    (l.link project).archive = "futhark_generate_" ++ project ∧
    (l.link project).directives =
      ("cargo:rustc-link-lib=" ++ ("futhark_generate_" ++ project)) ::
        l.manifest.backend.required_c_libs.map
          (fun s => "cargo:rustc-link-lib=" ++ s) :=
  ⟨rfl, rfl, rfl, rfl⟩

/-- C8: for every backend and source path, `Compiler::new` produces a
Compiler whose executable name is "futhark" and whose extra-argument list
is empty, and `with_executable_name` changes only the per-Compiler `exe`
field. -/
theorem compiler_new_defaults (b : Backend) (src : PathBuf)
    (canon : PathBuf → Option PathBuf) (c : Compiler)
    (h : Compiler.new b src canon = some c) :
    c.exe = "futhark" ∧ c.extra_args = [] ∧
    ∀ n : String, c.with_executable_name n =
      { exe := n, backend := c.backend, src := c.src,
        extra_args := c.extra_args, output_dir := c.output_dir } := by
  unfold Compiler.new at h
  split at h
  · exact absurd h (by simp)
  · split at h
    · exact absurd h (by simp)
    · cases Option.some.inj h
      exact ⟨rfl, rfl, fun n => rfl⟩

theorem compiler_new_defaults_witness :
    Compiler.new Backend.C ⟨true, ["d", "f.fut"]⟩ (fun p => some p) =
      some { exe := "futhark", backend := Backend.C,
             src := ⟨true, ["d", "f.fut"]⟩, extra_args := [],
             output_dir := ⟨true, ["d"]⟩ } ∧
    ({ exe := "futhark", backend := Backend.C, src := ⟨true, ["d", "f.fut"]⟩,
       extra_args := [], output_dir := ⟨true, ["d"]⟩ } : Compiler).exe =
        "futhark" ∧
    ({ exe := "futhark", backend := Backend.C, src := ⟨true, ["d", "f.fut"]⟩,
       extra_args := [], output_dir := ⟨true, ["d"]⟩ } : Compiler).extra_args =
        [] ∧
    ∀ n : String,
      ({ exe := "futhark", backend := Backend.C, src := ⟨true, ["d", "f.fut"]⟩,
         extra_args := [], output_dir := ⟨true, ["d"]⟩ } : Compiler).with_executable_name n =
        { exe := n, backend := Backend.C, src := ⟨true, ["d", "f.fut"]⟩,
          extra_args := [], output_dir := ⟨true, ["d"]⟩ } :=
  ⟨rfl, compiler_new_defaults Backend.C ⟨true, ["d", "f.fut"]⟩
    (fun p => some p) _ rfl⟩

/-- C9: for every Backend variant, deserialising the wire-name string
returned by `to_str` (per the serde rename encoding) yields exactly that
variant: the wire name and the rename form a round-trip over all six
variants. -/
theorem backend_wire_name_roundtrip (b : Backend) :
    Backend.fromWireName b.to_str = some b := by
  cases b <;> rfl

/-- C10: `Compiler::new` panics (modelled as `none`, not an `Error`) when
the source path cannot be canonicalised, and otherwise sets the default
output directory to the parent of the canonicalised source path;
`with_output_dir` replaces only the `output_dir` field. -/
theorem compiler_new_output_dir_and_panic (b : Backend) (src : PathBuf)
    (canon : PathBuf → Option PathBuf) :
    (canon src = none → Compiler.new b src canon = none) ∧
    (∀ p d, canon src = some p → p.parent = some d →
      Compiler.new b src canon = some
        { exe := "futhark", backend := b, src := src,
          extra_args := [], output_dir := d }) ∧
    (∀ (c : Compiler) (dir : PathBuf), c.with_output_dir dir =
      { exe := c.exe, backend := c.backend, src := c.src,
        extra_args := c.extra_args, output_dir := dir }) := by
  refine ⟨?_, ?_, ?_⟩
  · intro h; unfold Compiler.new; rw [h]
  · intro p d hp hd
    simp only [Compiler.new, hp, hd]
  · intro c dir; rfl

theorem compiler_new_output_dir_and_panic_witness :
    Compiler.new Backend.OpenCL ⟨true, ["d", "f.fut"]⟩ (fun p => some p) =
      some { exe := "futhark", backend := Backend.OpenCL,
             src := ⟨true, ["d", "f.fut"]⟩, extra_args := [],
             output_dir := ⟨true, ["d"]⟩ } ∧
    Compiler.new Backend.OpenCL ⟨true, ["d", "f.fut"]⟩ (fun _ => none) = none :=
  ⟨(compiler_new_output_dir_and_panic Backend.OpenCL ⟨true, ["d", "f.fut"]⟩
      (fun p => some p)).2.1 ⟨true, ["d", "f.fut"]⟩ ⟨true, ["d"]⟩ rfl rfl,
   (compiler_new_output_dir_and_panic Backend.OpenCL ⟨true, ["d", "f.fut"]⟩
      (fun _ => none)).1 rfl⟩

end FutharkBindgen
